import Mathlib

/-!
Verification of `app/core/static/core/js/create_trip_form.js` (the second,
load-time-initializing variant, which the design notes adopt as the target
behavior).  The script is event-driven jQuery glue: change handlers on the
two city selectors (`#start_point`, `#end_point`) fetch a station list and
repopulate the bound station selector (`#departure_station`,
`#arrival_station`), a second pair of change handlers toggles the station
selector's `disabled` property, and a load-time block pre-fetches stations
for preselected city values and disables station fields whose city value
trims to the empty string.

The embedding models the DOM state touched by the script as `PageState`,
the delivered events (city change, asynchronous `$.get` success callback)
as `Event`, and records every HTTP GET the script issues as a `FetchReq`.
JavaScript string truthiness (`if (startCityId)`, `!$(this).val()`) is
modelled as (in)equality with the empty string, and `$.trim` as the
structurally recursive `trimJS`.
-/

namespace CreateTripForm

/-- An entry of the AJAX response's `results` list: `{id: ..., text: ...}`.
Both components are opaque tokens, modelled as strings. -/
structure Entry where
  id : String
  text : String
deriving DecidableEq

/-- One `<option>` element of a station select, as the DOM holds it after
the markup produced by the script is parsed: its `value` attribute and its
displayed label. -/
structure OptionEl where
  value : String
  label : String
deriving DecidableEq

/-- The two city/station pairs the script wires together:
`startPair` is `#start_point` / `#departure_station`,
`endPair` is `#end_point` / `#arrival_station`. -/
inductive Side where
  | startPair
  | endPair
deriving DecidableEq

/-- The DOM state of one station select: its option list and its
`disabled` property. -/
structure StationField where
  options : List OptionEl
  disabled : Bool
deriving DecidableEq

/-- The DOM state the script reads and writes: the current values of the
two city selects and the two station selects. -/
structure PageState where
  start_point : String
  end_point : String
  departure_station : StationField
  arrival_station : StationField
deriving DecidableEq

/-- An HTTP GET issued by the script: which pair's station select the
success callback will repopulate, and the requested URL. -/
structure FetchReq where
  side : Side
  url : String
deriving DecidableEq

/-- jQuery's `$.trim`: strip leading and trailing whitespace. -/
def trimJS (s : String) : String :=
  String.mk (((s.data.dropWhile Char.isWhitespace).reverse.dropWhile
    Char.isWhitespace).reverse)

/-- Line 48: `var url = '/ajax/get_stations/?city_id=' + cityId;`. -/
def get_stations_url (cityId : String) : String :=
  "/ajax/get_stations/?city_id=" ++ cityId

/-- Line 54: the option markup appended for one response entry:
`'<option value="' + item.id + '">' + item.text + '</option>'`. -/
def optionMarkup (item : Entry) : String :=
  "<option value=\"" ++ item.id ++ "\">" ++ item.text ++ "</option>"

/-- DOM effect of `stationSelect.append(optionMarkup item)`: one more
option whose value is `item.id` and whose label is `item.text`. -/
def appendOption (opts : List OptionEl) (item : Entry) : List OptionEl :=
  opts ++ [⟨item.id, item.text⟩]

/-- Lines 50-56, the `$.get` success callback of `updateStations`:
`stationSelect.empty()` followed by `$.each(data.results, ... append)`. -/
def repopulate (field : StationField) (results : List Entry) : StationField :=
  { field with options := results.foldl appendOption [] }

/-- The option list a response's `results` list renders to. -/
def renderResults (results : List Entry) : List OptionEl :=
  results.map (fun item => ⟨item.id, item.text⟩)

/-- The city select's current value for a given pair. -/
def PageState.cityVal (s : PageState) : Side → String
  | .startPair => s.start_point
  | .endPair => s.end_point

/-- The station select bound to a given pair. -/
def PageState.station (s : PageState) : Side → StationField
  | .startPair => s.departure_station
  | .endPair => s.arrival_station

/-- Overwrite the city select's value for a given pair (the state after the
user picks a new value, before the change handlers run). -/
def setCity (s : PageState) (p : Side) (v : String) : PageState :=
  match p with
  | .startPair => { s with start_point := v }
  | .endPair => { s with end_point := v }

/-- Apply a function to the station select bound to a given pair. -/
def modifyStation (s : PageState) (p : Side) (f : StationField → StationField) :
    PageState :=
  match p with
  | .startPair => { s with departure_station := f s.departure_station }
  | .endPair => { s with arrival_station := f s.arrival_station }

/-- The events the runtime delivers to the script's handlers:
a change event on a city select (carrying its new value), and the success
callback of a previously issued `$.get` (carrying the `city_id` it was
parameterized with and the response's `results` list). -/
inductive Event where
  | change (p : Side) (v : String)
  | fetchSuccess (p : Side) (cityId : String) (results : List Entry)

/-- One event-loop step.  On `change p v` both registered handlers run:
lines 59-69 read the value and call `updateStations`, which issues the GET
unconditionally; lines 99-106 set `disabled` to `!$(this).val()`, i.e. to
whether the value is the empty string.  On `fetchSuccess` the callback of
lines 50-56 repopulates the captured station select.  The second component
lists the HTTP GETs the step issues. -/
def applyEvent (s : PageState) : Event → PageState × List FetchReq
  | .change p v =>
      let s1 := setCity s p v
      let s2 := modifyStation s1 p (fun st => { st with disabled := decide (v = "") })
      (s2, [⟨p, get_stations_url v⟩])
  | .fetchSuccess p _cityId results =>
      (modifyStation s p (fun st => repopulate st results), [])

/-- Run a list of events in order, collecting every issued fetch. -/
def runEvents (s : PageState) : List Event → PageState × List FetchReq
  | [] => (s, [])
  | e :: es =>
      let r1 := applyEvent s e
      let r2 := runEvents r1.1 es
      (r2.1, r1.2 ++ r2.2)

/-- Lines 72-96, the synchronous part of the load-time block: read the
preselected city values; for each truthy (non-empty) one, `updateStations`
issues a GET (lines 75-81); then disable each station select whose city
value trims to the empty string (lines 90-96).  The asynchronous
repopulation arrives later as a `fetchSuccess` event. -/
def initializeOnLoad (s : PageState) : PageState × List FetchReq :=
  let startCityId := s.start_point
  let endCityId := s.end_point
  let fetches : List FetchReq :=
    (if startCityId = "" then [] else [⟨Side.startPair, get_stations_url startCityId⟩])
      ++ (if endCityId = "" then [] else [⟨Side.endPair, get_stations_url endCityId⟩])
  let s1 :=
    if trimJS startCityId = "" then
      modifyStation s .startPair (fun st => { st with disabled := true })
    else s
  let s2 :=
    if trimJS endCityId = "" then
      modifyStation s1 .endPair (fun st => { st with disabled := true })
    else s1
  (s2, fetches)

/-- A page state with no city selected and both station selects empty and
enabled (the browser default for a select without a `disabled` attribute). -/
def blankState : PageState :=
  ⟨"", "", ⟨[], false⟩, ⟨[], false⟩⟩

lemma foldl_appendOption (results : List Entry) (acc : List OptionEl) :
    results.foldl appendOption acc = acc ++ renderResults results := by
  induction results generalizing acc with
  | nil => simp [renderResults]
  | cons hd tl ih =>
      simp [List.foldl, appendOption, ih, renderResults]

lemma repopulate_options (field : StationField) (results : List Entry) :
    (repopulate field results).options = renderResults results := by
  simp [repopulate, foldl_appendOption]

/-- A page state whose start city is already "5" and whose station selects
are empty and enabled. -/
def stateFive : PageState :=
  ⟨"5", "", ⟨[], false⟩, ⟨[], false⟩⟩

lemma station_modifyStation_same (s : PageState) (p : Side)
    (f : StationField → StationField) :
    (modifyStation s p f).station p = f (s.station p) := by
  cases p <;> rfl

lemma cityVal_setCity_same (s : PageState) (p : Side) (v : String) :
    (setCity s p v).cityVal p = v := by
  cases p <;> rfl

lemma station_setCity (s : PageState) (p q : Side) (v : String) :
    (setCity s p v).station q = s.station q := by
  cases p <;> cases q <;> rfl

/-- C3: a successful fetch response repopulates the bound station field to
exactly one option per response entry, in server order, with value the
entry's id and label the entry's text, discarding all prior options (the
result is independent of the field's previous option list); an empty
`results` list leaves zero options. -/
theorem C3_repopulate_exact (field : StationField) (results : List Entry) :
    (repopulate field results).options
        = results.map (fun item => OptionEl.mk item.id item.text)
      ∧ (repopulate field results).options.length = results.length
      ∧ (repopulate field []).options = [] := by
  refine ⟨?_, ?_, ?_⟩
  · simpa [renderResults] using repopulate_options field results
  · simp [repopulate_options, renderResults]
  · simp [repopulate_options, renderResults]

/-- C9: the option markup appended for a response entry is exactly the
string concatenation `<option value="` + id + `">` + text + `</option>`,
and the entry's text appears in it verbatim (no escaping). -/
theorem C9_option_markup (item : Entry) :
    optionMarkup item
        = "<option value=\"" ++ item.id ++ "\">" ++ item.text ++ "</option>"
      ∧ ∃ before after, optionMarkup item = before ++ item.text ++ after := by
  exact ⟨rfl, "<option value=\"" ++ item.id ++ "\">", "</option>", by
    simp [optionMarkup, String.append_assoc]⟩

/-- C1 counterexample: after a change event delivering the whitespace-only
value " ", the departure station field is enabled (the change handler tests
the raw value, line 101), yet the value trims to the empty string — so the
claimed "enabled iff trim(v) non-empty" invariant fails after this change
event. -/
theorem C1_trim_invariant_cex :
    ((applyEvent blankState (Event.change .startPair " ")).1.departure_station).disabled
        = false
      ∧ trimJS " " = "" := by
  exact ⟨rfl, rfl⟩

/-- C1 amended: after every change event delivering value `v`, regardless
of the station field's prior state, the bound station field is disabled
exactly when the raw (untrimmed) `v` is empty; after the load-time block,
a station field that was enabled beforehand is disabled exactly when its
city value trims to the empty string. -/
theorem C1_enable_policy (s : PageState) (p : Side) (v : String) :
    (((applyEvent s (Event.change p v)).1).station p).disabled = decide (v = "")
      ∧ ((s.station p).disabled = false →
          (((initializeOnLoad s).1).station p).disabled
            = decide (trimJS (s.cityVal p) = "")) := by
  constructor
  · cases p <;>
      simp [applyEvent, setCity, modifyStation, PageState.station]
  · intro hinit
    cases p <;>
      · simp only [initializeOnLoad, PageState.cityVal, PageState.station] at *
        split_ifs <;> simp_all [modifyStation, PageState.station]

/-- C1 witness: instantiating the amended enable policy at a concrete
state whose station fields start enabled, discharging the load-time
conjunct's initially-enabled hypothesis. -/
theorem C1_enable_policy_witness :
    (((applyEvent stateFive (Event.change .startPair "7")).1).station .startPair).disabled
        = decide (("7" : String) = "")
      ∧ (((initializeOnLoad stateFive).1).station .startPair).disabled
          = decide (trimJS (stateFive.cityVal .startPair) = "") :=
  ⟨(C1_enable_policy stateFive .startPair "7").1,
    (C1_enable_policy stateFive .startPair "7").2 rfl⟩

/-- C2 counterexample: changing `start_point` from "5" to "" does disable
`departure_station`, but it also issues an HTTP GET — the change handler
calls `updateStations` unconditionally (lines 59-63), so the claimed
"no fetch is performed" part is false. -/
theorem C2_empty_change_cex :
    ((applyEvent stateFive (Event.change .startPair "")).1.departure_station).disabled
        = true
      ∧ (applyEvent stateFive (Event.change .startPair "")).2
          = [⟨Side.startPair, "/ajax/get_stations/?city_id="⟩] := by
  exact ⟨rfl, rfl⟩

/-- C2 amended: a change event delivering the empty value disables the
bound station field, but still issues exactly one HTTP GET, parameterized
by the empty city id. -/
theorem C2_change_empty_fetches (s : PageState) (p : Side) :
    (((applyEvent s (Event.change p "")).1).station p).disabled = true
      ∧ (applyEvent s (Event.change p "")).2 = [⟨p, get_stations_url ""⟩] := by
  cases p <;> simp [applyEvent, setCity, modifyStation, PageState.station]

/-- C5: if an issued fetch never completes (failure or a success callback
that never runs), the bound station field's option set after the change
event equals its option set before it, and its disabled state is exactly
what the change handler computed from the city value, independent of fetch
success. -/
theorem C5_no_completion_frame (s : PageState) (p : Side) (v : String) :
    (((applyEvent s (Event.change p v)).1).station p).options
        = (s.station p).options
      ∧ (((applyEvent s (Event.change p v)).1).station p).disabled
          = decide (v = "") := by
  cases p <;> simp [applyEvent, setCity, modifyStation, PageState.station]

/-- C6: after two successive changes of `start_point` to `v1` then `v2`,
with both fetches completing, the departure station's final option list is
the rendering of whichever response arrived last: completions in issue
order end with `d2`'s options, reversed completions end with `d1`'s options
even though the currently selected city is `v2`; either way the final list
is one of the two valid responses. -/
theorem C6_last_completion_wins (s : PageState) (v1 v2 : String)
    (d1 d2 : List Entry) :
    ((runEvents s [Event.change .startPair v1, Event.change .startPair v2,
        Event.fetchSuccess .startPair v1 d1,
        Event.fetchSuccess .startPair v2 d2]).1.departure_station).options
        = renderResults d2
      ∧ ((runEvents s [Event.change .startPair v1, Event.change .startPair v2,
          Event.fetchSuccess .startPair v2 d2,
          Event.fetchSuccess .startPair v1 d1]).1.departure_station).options
          = renderResults d1
      ∧ (runEvents s [Event.change .startPair v1, Event.change .startPair v2,
          Event.fetchSuccess .startPair v2 d2,
          Event.fetchSuccess .startPair v1 d1]).1.start_point = v2
      ∧ (((runEvents s [Event.change .startPair v1, Event.change .startPair v2,
          Event.fetchSuccess .startPair v1 d1,
          Event.fetchSuccess .startPair v2 d2]).1.departure_station).options
            = renderResults d1
        ∨ ((runEvents s [Event.change .startPair v1, Event.change .startPair v2,
            Event.fetchSuccess .startPair v1 d1,
            Event.fetchSuccess .startPair v2 d2]).1.departure_station).options
            = renderResults d2) := by
  refine ⟨?_, ?_, ?_, Or.inr ?_⟩ <;>
    simp [runEvents, applyEvent, setCity, modifyStation, repopulate,
      foldl_appendOption]

/-- C7: the two city/station pairs are independent — any change event or
fetch completion on the start pair leaves the arrival station select (its
options and disabled state) unchanged, and symmetrically for the end pair
and the departure station select. -/
theorem C7_pair_independence (s : PageState) (v cityId : String)
    (rs : List Entry) :
    ((applyEvent s (Event.change .startPair v)).1).arrival_station
        = s.arrival_station
      ∧ ((applyEvent s (Event.fetchSuccess .startPair cityId rs)).1).arrival_station
          = s.arrival_station
      ∧ ((applyEvent s (Event.change .endPair v)).1).departure_station
          = s.departure_station
      ∧ ((applyEvent s (Event.fetchSuccess .endPair cityId rs)).1).departure_station
          = s.departure_station := by
  simp [applyEvent, setCity, modifyStation]

/-- A page state whose start city value is a single space (truthy in
JavaScript, but trimming to the empty string), station selects enabled. -/
def stateWS : PageState :=
  ⟨" ", "", ⟨[], false⟩, ⟨[], false⟩⟩

/-- A sample two-entry response list. -/
def entriesAB : List Entry :=
  [⟨"1", "A"⟩, ⟨"2", "B"⟩]

lemma init_fetches (s : PageState) :
    (initializeOnLoad s).2
      = (if s.start_point = "" then []
          else [⟨Side.startPair, get_stations_url s.start_point⟩])
        ++ (if s.end_point = "" then []
            else [⟨Side.endPair, get_stations_url s.end_point⟩]) := rfl

lemma init_station_disabled (s : PageState) (p : Side) :
    (((initializeOnLoad s).1).station p).disabled
      = (decide (trimJS (s.cityVal p) = "") || (s.station p).disabled) := by
  cases p <;>
    · simp only [initializeOnLoad, PageState.cityVal, PageState.station]
      split_ifs <;> simp_all [modifyStation, PageState.station]

lemma init_station_options (s : PageState) (p : Side) :
    (((initializeOnLoad s).1).station p).options = (s.station p).options := by
  cases p <;>
    · simp only [initializeOnLoad, PageState.station]
      split_ifs <;> simp_all [modifyStation, PageState.station]

lemma applyEvent_fetchSuccess_station (s : PageState) (p : Side)
    (cid : String) (rs : List Entry) :
    ((applyEvent s (Event.fetchSuccess p cid rs)).1).station p
      = repopulate (s.station p) rs := by
  simp [applyEvent, station_modifyStation_same]

lemma repopulate_disabled (field : StationField) (rs : List Entry) :
    (repopulate field rs).disabled = field.disabled := rfl

/-- C4 counterexample: at load time with `start_point` preselected to the
whitespace-only value " " (non-empty) and `departure_station` enabled, a
fetch for that value is issued, yet the field ends disabled — refuting the
claim that a non-empty preselected value leaves the bound station field
enabled. -/
theorem C4_load_init_cex :
    (" " : String) ≠ ""
      ∧ (initializeOnLoad stateWS).2
          = [⟨Side.startPair, get_stations_url " "⟩]
      ∧ ((initializeOnLoad stateWS).1.departure_station).disabled = true := by
  exact ⟨by decide, rfl, rfl⟩

/-- C4 amended: at page load, for each pair whose station field starts
enabled: if the city value is non-empty, a fetch parameterized by it is
issued and the response's arrival repopulates the bound station field,
which ends enabled exactly when the value trims to a non-empty string; if
the city value is empty, the station field is disabled and no fetch is
issued for that pair. -/
theorem C4_load_init (s : PageState) (p : Side) (rs : List Entry)
    (henabled : (s.station p).disabled = false) :
    (s.cityVal p ≠ "" →
        FetchReq.mk p (get_stations_url (s.cityVal p)) ∈ (initializeOnLoad s).2
          ∧ (((applyEvent (initializeOnLoad s).1
                (Event.fetchSuccess p (s.cityVal p) rs)).1).station p).options
              = renderResults rs
          ∧ (((applyEvent (initializeOnLoad s).1
                (Event.fetchSuccess p (s.cityVal p) rs)).1).station p).disabled
              = decide (trimJS (s.cityVal p) = ""))
      ∧ (s.cityVal p = "" →
          (((initializeOnLoad s).1).station p).disabled = true
            ∧ (initializeOnLoad s).2.filter (fun r => decide (r.side = p)) = []) := by
  constructor
  · intro hv
    refine ⟨?_, ?_, ?_⟩
    · rw [init_fetches]
      cases p <;> simp_all [PageState.cityVal]
    · rw [applyEvent_fetchSuccess_station, repopulate_options]
    · rw [applyEvent_fetchSuccess_station, repopulate_disabled,
        init_station_disabled, henabled, Bool.or_false]
  · intro hv
    constructor
    · rw [init_station_disabled, hv]
      simp [trimJS]
    · rw [init_fetches]
      cases p <;> simp_all [PageState.cityVal]

/-- C4 witness: instantiating the amended load-time behavior at a state
whose start city is preselected to "5" with an enabled, empty departure
station field, and a concrete two-entry response. -/
theorem C4_load_init_witness :
    FetchReq.mk Side.startPair (get_stations_url (stateFive.cityVal .startPair))
        ∈ (initializeOnLoad stateFive).2
      ∧ (((applyEvent (initializeOnLoad stateFive).1
            (Event.fetchSuccess .startPair (stateFive.cityVal .startPair)
              entriesAB)).1).station .startPair).options
          = renderResults entriesAB
      ∧ (((applyEvent (initializeOnLoad stateFive).1
            (Event.fetchSuccess .startPair (stateFive.cityVal .startPair)
              entriesAB)).1).station .startPair).disabled
          = decide (trimJS (stateFive.cityVal .startPair) = "") :=
  (C4_load_init stateFive .startPair entriesAB rfl).1 (by decide)

/-- C8: when a station field is disabled at load time because its city
value trims to the empty string, its option list is exactly what it was
before — the load-time disable path clears no options. -/
theorem C8_disable_keeps_options (s : PageState) (p : Side)
    (h : trimJS (s.cityVal p) = "") :
    (((initializeOnLoad s).1).station p).disabled = true
      ∧ (((initializeOnLoad s).1).station p).options = (s.station p).options := by
  refine ⟨?_, init_station_options s p⟩
  rw [init_station_disabled, h]
  simp

/-- C8 witness: a state whose start city is empty and whose departure
station field already holds an option keeps that option through the
load-time disable. -/
theorem C8_disable_keeps_options_witness :
    (((initializeOnLoad ⟨"", "", ⟨[⟨"9", "Old"⟩], false⟩, ⟨[], false⟩⟩).1).station
        .startPair).disabled = true
      ∧ (((initializeOnLoad ⟨"", "", ⟨[⟨"9", "Old"⟩], false⟩, ⟨[], false⟩⟩).1).station
          .startPair).options
        = ((⟨"", "", ⟨[⟨"9", "Old"⟩], false⟩, ⟨[], false⟩⟩ : PageState).station
            .startPair).options :=
  C8_disable_keeps_options ⟨"", "", ⟨[⟨"9", "Old"⟩], false⟩, ⟨[], false⟩⟩
    .startPair (by decide)

/-- C10: a whitespace-only preselected city value is truthy, so load-time
initialization both issues a fetch parameterized by the raw whitespace
value and disables the bound station field (the trim-based check); when
the response arrives the disabled field is nevertheless repopulated. -/
theorem C10_whitespace_load (s : PageState) (p : Side) (rs : List Entry)
    (hne : s.cityVal p ≠ "") (htrim : trimJS (s.cityVal p) = "") :
    FetchReq.mk p (get_stations_url (s.cityVal p)) ∈ (initializeOnLoad s).2
      ∧ (((initializeOnLoad s).1).station p).disabled = true
      ∧ (((applyEvent (initializeOnLoad s).1
            (Event.fetchSuccess p (s.cityVal p) rs)).1).station p).options
          = renderResults rs
      ∧ (((applyEvent (initializeOnLoad s).1
            (Event.fetchSuccess p (s.cityVal p) rs)).1).station p).disabled
          = true := by
  refine ⟨?_, ?_, ?_, ?_⟩
  · rw [init_fetches]
    cases p <;> simp_all [PageState.cityVal]
  · rw [init_station_disabled, htrim]
    simp
  · rw [applyEvent_fetchSuccess_station, repopulate_options]
  · rw [applyEvent_fetchSuccess_station, repopulate_disabled,
      init_station_disabled, htrim]
    simp

/-- C10 witness: the whitespace-value load-time behavior at the concrete
state whose start city value is a single space, with a concrete response. -/
theorem C10_whitespace_load_witness :
    FetchReq.mk Side.startPair (get_stations_url (stateWS.cityVal .startPair))
        ∈ (initializeOnLoad stateWS).2
      ∧ (((initializeOnLoad stateWS).1).station .startPair).disabled = true
      ∧ (((applyEvent (initializeOnLoad stateWS).1
            (Event.fetchSuccess .startPair (stateWS.cityVal .startPair)
              entriesAB)).1).station .startPair).options
          = renderResults entriesAB
      ∧ (((applyEvent (initializeOnLoad stateWS).1
            (Event.fetchSuccess .startPair (stateWS.cityVal .startPair)
              entriesAB)).1).station .startPair).disabled
          = true :=
  C10_whitespace_load stateWS .startPair entriesAB (by decide) (by decide)

end CreateTripForm
